import Mathlib

/-!
Shallow embedding of the mode-orchestration core of the Fast Pair locator tag
sample (samples/bluetooth/fast_pair/locator_tag/src/main.c and
smp_adv_prov.c), together with theorems checking the natural-language
specification against it.

The global booleans of main.c become fields of an explicit state record;
every handler is translated into a pure function from state (plus the oracle
inputs it reads from collaborators) to the new state paired with the list of
commands it emits to collaborators.  Delayed work items are modelled as a set
of named one-shot timers; re-arming uses the k_work_reschedule semantics
(reset to the full delay, never a duplicate timer object).
-/

/-- Fast Pair advertising modes of the app_fp_adv collaborator. -/
inductive AppFpAdvMode
  | off
  | discoverable
  | notDiscoverable
deriving DecidableEq, Repr

/-- Factory reset reason, from the factory_reset_trigger enum in main.c. -/
inductive FactoryResetTrigger
  | noTrigger
  | keyStateMismatch
  | provisioningTimeout
deriving DecidableEq, Repr

/-- Identity tags of the delayed one-shot timers used by the sample: the
single factory-reset timer owned by the app_factory_reset collaborator and
the DFU mode timeout work item of main.c. -/
inductive TimerId
  | factoryReset
  | dfuTimeout
deriving DecidableEq, Repr

/-- Armed one-shot timers: each entry is a timer identity with its remaining
delay in milliseconds.  Arming is create-or-re-arm (k_work_reschedule
semantics; spec section 4.5). -/
abbrev TimerSet := List (TimerId × Nat)

/-- Create or re-arm the timer with the given identity (k_work_reschedule /
spec section 4.5 arm): a live timer with the same identity is reset to the
full delay, otherwise a new timer is inserted. -/
def arm (ts : TimerSet) (id : TimerId) (d : Nat) : TimerSet :=
  if ts.any (fun q => q.1 == id) then
    ts.map (fun q => if q.1 == id then (id, d) else q)
  else
    (id, d) :: ts

/-- Disarm the timer with the given identity, if live. -/
def cancelTimer (ts : TimerSet) (id : TimerId) : TimerSet :=
  ts.filter (fun q => q.1 != id)

/-- UI state tags of app_ui_state_change_indicate. -/
inductive UiState
  | provisionedUi
  | recoveryModeUi
  | idModeUi
  | dfuModeUi
deriving DecidableEq, Repr

/-- Read modes of bt_fast_pair_fmdn_read_mode_enter. -/
inductive ReadMode
  | fmdnRecovery
  | dultId
deriving DecidableEq, Repr

/-- Commands emitted by the mode controller to its collaborators. -/
inductive Effect
  | uiIndicate (st : UiState) (v : Bool)
  | advModeSet (m : AppFpAdvMode)
  | smpEnable (v : Bool)
  | rpaRotationSuspend (v : Bool)
  | factoryResetScheduleEff (delayMs : Nat)
  | factoryResetCancelEff
  | factoryResetRun
  | readModeEnter (m : ReadMode)
deriving DecidableEq, Repr

/-- The mutable state of main.c: the static booleans, the factory-reset
trigger, the static first-callback latch of fmdn_provisioning_state_changed,
and the armed timers. -/
structure AppState where
  fmdn_provisioned : Bool
  fmdn_recovery_mode : Bool
  fmdn_id_mode : Bool
  dfu_mode : Bool
  fp_account_key_present : Bool
  factory_reset_executed : Bool
  factory_reset_trigger : FactoryResetTrigger
  is_first_state_changed_cb : Bool
  timers : TimerSet
deriving DecidableEq, Repr

/-- Boot state: every static boolean of main.c is zero-initialized except the
first-callback latch, which is statically initialized to true; no timer is
armed. -/
def boot : AppState :=
  { fmdn_provisioned := false
    fmdn_recovery_mode := false
    fmdn_id_mode := false
    dfu_mode := false
    fp_account_key_present := false
    factory_reset_executed := false
    factory_reset_trigger := FactoryResetTrigger.noTrigger
    is_first_state_changed_cb := true
    timers := [] }

/-- FACTORY_RESET_DELAY of main.c (3 seconds), in milliseconds. -/
def factoryResetDelayMs : Nat := 3000

/-- FMDN_PROVISIONING_TIMEOUT of main.c (5 minutes), in milliseconds. -/
def fmdnProvisioningTimeoutMs : Nat := 300000

/-- DFU_MODE_TIMEOUT of main.c (1 minute), in milliseconds. -/
def dfuModeTimeoutMs : Nat := 60000

/-- fmdn_factory_reset_executed of main.c: the completion action of a
scheduled factory reset clears the trigger and sets the executed latch. -/
def fmdn_factory_reset_executed (s : AppState) : AppState :=
  { s with factory_reset_trigger := FactoryResetTrigger.noTrigger
           factory_reset_executed := true }

/-- fmdn_factory_reset_schedule of main.c.  The call into
app_factory_reset_schedule is modelled from the spec (sections 4.4 and 4.5):
the app_factory_reset collaborator, whose source is outside this tree, owns a
single named reset timer which a schedule call arms or re-arms. -/
def fmdn_factory_reset_schedule (trigger : FactoryResetTrigger) (delayMs : Nat)
    (s : AppState) : AppState × List Effect :=
  ({ s with timers := arm s.timers TimerId.factoryReset delayMs
            factory_reset_trigger := trigger },
   [Effect.factoryResetScheduleEff delayMs])

/-- fmdn_factory_reset_cancel of main.c: disarm the collaborator's reset
timer and clear the trigger. -/
def fmdn_factory_reset_cancel (s : AppState) : AppState × List Effect :=
  ({ s with timers := cancelTimer s.timers TimerId.factoryReset
            factory_reset_trigger := FactoryResetTrigger.noTrigger },
   [Effect.factoryResetCancelEff])

/-- Security errors returned by the pairing-accept callback. -/
inductive BtSecurityErr
  | success
  | authRequirement
  | pairNotAllowed
deriving DecidableEq, Repr

/-- Opaque handle of a Bluetooth connection (unused by the sample's
callbacks). -/
structure BtConn where
  handle : Nat
deriving DecidableEq, Repr

/-- Opaque pairing feature set of a pairing request (unused by the sample's
pairing-accept callback). -/
structure BtConnPairingFeat where
  raw : Nat
deriving DecidableEq, Repr

/-- pairing_accept of main.c: normal Bluetooth pairing is always rejected. -/
def pairing_accept (conn : BtConn) (feat : BtConnPairingFeat) : BtSecurityErr :=
  BtSecurityErr.pairNotAllowed

/-- GATT attribute targets distinguished by gatt_authorize of main.c: the SMP
characteristic used for DFU, the GAP device name (the single entry of the
uuid_block_list), and every other attribute. -/
inductive AttrUuid
  | smpChar
  | gapDeviceName
  | otherAttr
deriving DecidableEq, Repr

/-- identifying_info_allow of main.c. -/
def identifying_info_allow (s : AppState) : Bool :=
  if !s.fmdn_provisioned then
    true
  else if s.fmdn_id_mode then
    true
  else
    false

/-- gatt_authorize of main.c.  The C function only reads the mode state; the
returned state makes that explicit so that freedom from mutation is a
provable statement. -/
def gatt_authorize (attr : AttrUuid) (s : AppState) : Bool × AppState :=
  if attr = AttrUuid.smpChar then
    if !s.dfu_mode then (false, s) else (true, s)
  else if attr = AttrUuid.gapDeviceName then
    (identifying_info_allow s, s)
  else
    (true, s)

/-- Advertising-mode decision table of fmdn_provisioning_state_changed (the
advertising mode selector of the spec): the mode chosen once the handler
reaches its final step. -/
def advModeSelect (provisioned firstCb : Bool) : AppFpAdvMode :=
  if provisioned then
    if firstCb then AppFpAdvMode.notDiscoverable else AppFpAdvMode.off
  else
    AppFpAdvMode.discoverable

/-- fp_account_key_written of main.c.  The input hasKeyAfter is the value the
bt_fast_pair_has_account_key collaborator reports at the end of the
handler. -/
def fp_account_key_written (hasKeyAfter : Bool) (s : AppState) :
    AppState × List Effect :=
  if !s.fp_account_key_present then
    ({ (fmdn_factory_reset_schedule FactoryResetTrigger.provisioningTimeout
          fmdnProvisioningTimeoutMs s).1 with fp_account_key_present := hasKeyAfter },
     [Effect.advModeSet AppFpAdvMode.notDiscoverable]
       ++ (fmdn_factory_reset_schedule FactoryResetTrigger.provisioningTimeout
             fmdnProvisioningTimeoutMs s).2
       ++ [Effect.rpaRotationSuspend true])
  else
    ({ s with fp_account_key_present := hasKeyAfter },
     [Effect.advModeSet AppFpAdvMode.notDiscoverable])

/-- fmdn_provisioning_state_changed of main.c.  The input hasKey is the value
the bt_fast_pair_has_account_key collaborator reports when the handler
recomputes fp_account_key_present. -/
def fmdn_provisioning_state_changed (provisioned hasKey : Bool) (s0 : AppState) :
    AppState × List Effect :=
  let e0 : List Effect := [Effect.uiIndicate UiState.provisionedUi provisioned]
  let s1 : AppState := { s0 with fmdn_provisioned := provisioned }
  let cancelHit : Bool :=
    provisioned
      && (s1.factory_reset_trigger == FactoryResetTrigger.provisioningTimeout)
  let s2 : AppState := if cancelHit then (fmdn_factory_reset_cancel s1).1 else s1
  let e1 : List Effect :=
    if cancelHit then
      (fmdn_factory_reset_cancel s1).2 ++ [Effect.rpaRotationSuspend false]
    else []
  let s3 : AppState := { s2 with fp_account_key_present := hasKey }
  if hasKey != provisioned then
    ((fmdn_factory_reset_schedule FactoryResetTrigger.keyStateMismatch
        factoryResetDelayMs s3).1,
     e0 ++ e1 ++ [Effect.advModeSet AppFpAdvMode.off]
        ++ (fmdn_factory_reset_schedule FactoryResetTrigger.keyStateMismatch
              factoryResetDelayMs s3).2)
  else if s3.factory_reset_executed then
    ({ s3 with factory_reset_executed := false }, e0 ++ e1)
  else
    ({ s3 with is_first_state_changed_cb := false },
     e0 ++ e1
        ++ [Effect.advModeSet (advModeSelect provisioned s3.is_first_state_changed_cb)])

/-- fmdn_clock_synced of main.c. -/
def fmdn_clock_synced (s : AppState) : AppState × List Effect :=
  (s, if s.fmdn_provisioned then [Effect.advModeSet AppFpAdvMode.off] else [])

/-- fmdn_recovery_mode_action_handle of main.c.  The input enterErr is the
return value of the bt_fast_pair_fmdn_read_mode_enter collaborator call. -/
def fmdn_recovery_mode_action_handle (enterErr : Int) (s : AppState) :
    AppState × List Effect :=
  if !s.fmdn_provisioned then
    (s, [])
  else if enterErr != 0 then
    (s, [Effect.readModeEnter ReadMode.fmdnRecovery])
  else
    ({ s with fmdn_recovery_mode := true },
     [Effect.readModeEnter ReadMode.fmdnRecovery,
      Effect.uiIndicate UiState.recoveryModeUi true])

/-- fmdn_id_mode_action_handle of main.c.  The input enterErr is the return
value of the bt_fast_pair_fmdn_read_mode_enter collaborator call. -/
def fmdn_id_mode_action_handle (enterErr : Int) (s : AppState) :
    AppState × List Effect :=
  if !s.fmdn_provisioned then
    (s, [])
  else if enterErr != 0 then
    (s, [Effect.readModeEnter ReadMode.dultId])
  else
    ({ s with fmdn_id_mode := true },
     [Effect.readModeEnter ReadMode.dultId,
      Effect.uiIndicate UiState.idModeUi true])

/-- fmdn_read_mode_exited of main.c, dispatching to
fmdn_recovery_mode_exited or fmdn_id_mode_exited. -/
def fmdn_read_mode_exited (mode : ReadMode) (s : AppState) :
    AppState × List Effect :=
  match mode with
  | ReadMode.fmdnRecovery =>
      ({ s with fmdn_recovery_mode := false },
       [Effect.uiIndicate UiState.recoveryModeUi false])
  | ReadMode.dultId =>
      ({ s with fmdn_id_mode := false },
       [Effect.uiIndicate UiState.idModeUi false])

/-- dfu_mode_action_handle of main.c. -/
def dfu_mode_action_handle (s : AppState) : AppState × List Effect :=
  ({ s with timers := arm s.timers TimerId.dfuTimeout dfuModeTimeoutMs
            dfu_mode := true },
   [Effect.smpEnable true,
    Effect.advModeSet (if s.fmdn_provisioned then AppFpAdvMode.notDiscoverable
                       else AppFpAdvMode.discoverable),
    Effect.uiIndicate UiState.dfuModeUi true])

/-- dfu_mode_timeout_work_handle of main.c. -/
def dfu_mode_timeout_work_handle (s : AppState) : AppState × List Effect :=
  ({ s with dfu_mode := false },
   [Effect.smpEnable false,
    Effect.advModeSet AppFpAdvMode.off,
    Effect.uiIndicate UiState.dfuModeUi false])

/-- MGMT_GROUP_ID_OS of the Zephyr MCUmgr collaborator headers. -/
def MGMT_GROUP_ID_OS : Nat := 0

/-- MGMT_GROUP_ID_IMAGE of the Zephyr MCUmgr collaborator headers. -/
def MGMT_GROUP_ID_IMAGE : Nat := 1

/-- OS_MGMT_ID_RESET of the Zephyr MCUmgr collaborator headers. -/
def OS_MGMT_ID_RESET : Nat := 5

/-- Return values of an MCUmgr management callback. -/
inductive MgmtCbReturn
  | ok
  | errorRc
deriving DecidableEq, Repr

/-- smp_cmd_recv of main.c.  eventOk stands for the event being
MGMT_EVT_OP_CMD_RECV and sizeOk for the data size matching the expected
command descriptor; group and id are the MCUmgr command group and command
identifier. -/
def smp_cmd_recv (eventOk sizeOk : Bool) (group id : Nat) (s : AppState) :
    MgmtCbReturn × AppState :=
  if !eventOk then
    (MgmtCbReturn.errorRc, s)
  else if !sizeOk then
    (MgmtCbReturn.errorRc, s)
  else if !(group == MGMT_GROUP_ID_IMAGE)
       && !((group == MGMT_GROUP_ID_OS) && (id == OS_MGMT_ID_RESET)) then
    (MgmtCbReturn.ok, s)
  else
    (MgmtCbReturn.ok,
     { s with timers := arm s.timers TimerId.dfuTimeout dfuModeTimeoutMs })

/-- Expiry of the DFU mode timeout work item: the work queue removes the
armed work item and runs dfu_mode_timeout_work_handle.  A disarmed timer
cannot fire. -/
def dfu_timer_fire (s : AppState) : AppState × List Effect :=
  if s.timers.any (fun q => q.1 == TimerId.dfuTimeout) then
    dfu_mode_timeout_work_handle
      { s with timers := cancelTimer s.timers TimerId.dfuTimeout }
  else
    (s, [])

/-- Expiry of the factory-reset timer.  Modelled from the spec (section 4.4):
on expiry the coordinator runs the reset action and the completion callback
fmdn_factory_reset_executed of main.c. -/
def reset_timer_fire (s : AppState) : AppState × List Effect :=
  if s.timers.any (fun q => q.1 == TimerId.factoryReset) then
    (fmdn_factory_reset_executed
       { s with timers := cancelTimer s.timers TimerId.factoryReset },
     [Effect.factoryResetRun])
  else
    (s, [])

/-- External events driving the mode controller, each carrying the oracle
values the corresponding handler reads from its collaborators. -/
inductive AppEvent
  | accountKeyWritten (hasKeyAfter : Bool)
  | provisioningStateChanged (provisioned hasKey : Bool)
  | clockSynced
  | uiRecoveryEnter (enterErr : Int)
  | uiIdEnter (enterErr : Int)
  | uiDfuEnter
  | smpCmd (eventOk sizeOk : Bool) (group id : Nat)
  | readModeExited (mode : ReadMode)
  | dfuTimerFire
  | resetTimerFire

/-- One step of the mode controller: dispatch an event to its handler. -/
def step (s : AppState) (e : AppEvent) : AppState × List Effect :=
  match e with
  | AppEvent.accountKeyWritten k => fp_account_key_written k s
  | AppEvent.provisioningStateChanged p k => fmdn_provisioning_state_changed p k s
  | AppEvent.clockSynced => fmdn_clock_synced s
  | AppEvent.uiRecoveryEnter err => fmdn_recovery_mode_action_handle err s
  | AppEvent.uiIdEnter err => fmdn_id_mode_action_handle err s
  | AppEvent.uiDfuEnter => dfu_mode_action_handle s
  | AppEvent.smpCmd eo so g i => ((smp_cmd_recv eo so g i s).2, [])
  | AppEvent.readModeExited m => fmdn_read_mode_exited m s
  | AppEvent.dfuTimerFire => dfu_timer_fire s
  | AppEvent.resetTimerFire => reset_timer_fire s

/-- Run an event sequence from the boot state. -/
def runEvents (evs : List AppEvent) : AppState :=
  evs.foldl (fun s e => (step s e).1) boot

/-- Number of live factory-reset timers. -/
def liveResetTimerCount (s : AppState) : Nat :=
  (s.timers.filter (fun q => q.1 == TimerId.factoryReset)).length

/-- Well-formedness of the timer set: timer identities are unique, so that a
timer identity has at most one live instance. -/
def TimersWf (ts : TimerSet) : Prop :=
  (ts.map Prod.fst).Nodup

/-- State of smp_adv_prov.c: its two static flags. -/
structure SmpAdvState where
  ad_enabled : Bool
  sd_enabled : Bool
deriving DecidableEq, Repr

/-- Initial values of the static flags of smp_adv_prov.c. -/
def smpAdvInit : SmpAdvState :=
  { ad_enabled := false, sd_enabled := false }

/-- app_smp_adv_prov_ad_enable of smp_adv_prov.c. -/
def app_smp_adv_prov_ad_enable (s : SmpAdvState) : SmpAdvState :=
  { s with ad_enabled := true, sd_enabled := false }

/-- app_smp_adv_prov_sd_enable of smp_adv_prov.c. -/
def app_smp_adv_prov_sd_enable (s : SmpAdvState) : SmpAdvState :=
  { s with ad_enabled := false, sd_enabled := true }

/-- app_smp_adv_prov_disable of smp_adv_prov.c. -/
def app_smp_adv_prov_disable (s : SmpAdvState) : SmpAdvState :=
  { s with ad_enabled := false, sd_enabled := false }

/-- A bt_data advertising element as filled by smp_adv_prov.c. -/
structure BtData where
  type : Nat
  data_len : Nat
  data : List Nat
deriving DecidableEq, Repr

/-- BT_DATA_UUID128_ALL advertising data type of the Bluetooth headers. -/
def BT_DATA_UUID128_ALL : Nat := 7

/-- The sixteen SMP service UUID bytes of fill_data in smp_adv_prov.c. -/
def smp_uuid_data : List Nat :=
  [0x84, 0xaa, 0x60, 0x74, 0x52, 0x8a, 0x8b, 0x86,
   0xd3, 0x4c, 0xb7, 0x1d, 0x1d, 0xdc, 0x53, 0x8d]

/-- fill_data of smp_adv_prov.c. -/
def fill_data : BtData :=
  { type := BT_DATA_UUID128_ALL
    data_len := smp_uuid_data.length
    data := smp_uuid_data }

/-- ENOENT errno value of the C library headers. -/
def ENOENT : Int := 2

/-- get_ad_data of smp_adv_prov.c; the Option records whether the output
bt_data element was filled. -/
def get_ad_data (s : SmpAdvState) : Int × Option BtData :=
  if !s.ad_enabled then (-ENOENT, Option.none) else (0, some fill_data)

/-- get_sd_data of smp_adv_prov.c. -/
def get_sd_data (s : SmpAdvState) : Int × Option BtData :=
  if !s.sd_enabled then (-ENOENT, Option.none) else (0, some fill_data)

/-- Calls into the public surface of smp_adv_prov.c. -/
inductive SmpAdvOp
  | adEnable
  | sdEnable
  | disable
deriving DecidableEq, Repr

/-- Dispatch one call on the smp_adv_prov state. -/
def smpAdvStep (s : SmpAdvState) (op : SmpAdvOp) : SmpAdvState :=
  match op with
  | SmpAdvOp.adEnable => app_smp_adv_prov_ad_enable s
  | SmpAdvOp.sdEnable => app_smp_adv_prov_sd_enable s
  | SmpAdvOp.disable => app_smp_adv_prov_disable s

/-- Run a call sequence on smp_adv_prov.c from its initial state. -/
def runSmpOps (ops : List SmpAdvOp) : SmpAdvState :=
  ops.foldl smpAdvStep smpAdvInit

/-- C1: the access gate implements exactly the decision table of the spec: an
SMP (firmware update) target is authorized iff dfu_mode is set, the GAP
device name is authorized iff the device is unprovisioned or in
identification mode, every other target is authorized, and evaluating the
gate leaves the state unchanged. -/
theorem gatt_authorize_decision_table (s : AppState) :
    (gatt_authorize AttrUuid.smpChar s).1 = s.dfu_mode ∧
    (gatt_authorize AttrUuid.gapDeviceName s).1
      = (!s.fmdn_provisioned || s.fmdn_id_mode) ∧
    (gatt_authorize AttrUuid.otherAttr s).1 = true ∧
    ∀ attr : AttrUuid, (gatt_authorize attr s).2 = s := by
  refine ⟨?_, ?_, ?_, ?_⟩
  · cases h : s.dfu_mode <;> simp [gatt_authorize, h]
  · cases hp : s.fmdn_provisioned <;> cases hi : s.fmdn_id_mode <;>
      simp [gatt_authorize, identifying_info_allow, hp, hi]
  · simp [gatt_authorize]
  · intro attr
    cases attr <;> cases h : s.dfu_mode <;>
      simp [gatt_authorize, identifying_info_allow, h]

/-- C7: normal Bluetooth pairing is never accepted: for every connection and
every pairing feature set the pairing-accept callback answers with the
pair-not-allowed security error. -/
theorem pairing_accept_rejects_all (conn : BtConn) (feat : BtConnPairingFeat) :
    pairing_accept conn feat = BtSecurityErr.pairNotAllowed :=
  rfl

theorem arm_mem (ts : TimerSet) (id : TimerId) (d : Nat) : (id, d) ∈ arm ts id d := by
  unfold arm
  split
  · rename_i hany
    rcases List.any_eq_true.mp hany with ⟨q, hq, hqid⟩
    exact List.mem_map.mpr ⟨q, hq, by simp [hqid]⟩
  · exact List.mem_cons_self _ _

theorem arm_wf (ts : TimerSet) (id : TimerId) (d : Nat) (h : TimersWf ts) :
    TimersWf (arm ts id d) := by
  unfold TimersWf at *
  unfold arm
  split
  · rename_i hany
    have hmap : ((ts.map fun q => if q.1 == id then (id, d) else q).map Prod.fst)
        = ts.map Prod.fst := by
      rw [List.map_map]
      apply List.map_congr_left
      intro q hq
      simp only [Function.comp_apply]
      split
      · rename_i hqid
        exact (beq_iff_eq.mp hqid).symm
      · rfl
    rw [hmap]
    exact h
  · rename_i hany
    rw [List.map_cons]
    refine List.nodup_cons.mpr ⟨?_, h⟩
    intro hmem
    rcases List.mem_map.mp hmem with ⟨q, hq, hq1⟩
    exact hany (List.any_eq_true.mpr ⟨q, hq, beq_iff_eq.mpr hq1⟩)

theorem cancelTimer_wf (ts : TimerSet) (id : TimerId) (h : TimersWf ts) :
    TimersWf (cancelTimer ts id) := by
  unfold TimersWf at *
  unfold cancelTimer
  exact h.sublist ((ts.filter_sublist).map Prod.fst)

theorem filter_fst_length_le (ts : TimerSet) (id : TimerId) (h : TimersWf ts) :
    (ts.filter (fun q => q.1 == id)).length ≤ 1 := by
  induction ts with
  | nil => simp
  | cons a t ih =>
    unfold TimersWf at h
    rw [List.map_cons, List.nodup_cons] at h
    by_cases ha : (a.1 == id) = true
    · have hid : a.1 = id := beq_iff_eq.mp ha
      have ht : t.filter (fun q => q.1 == id) = [] := by
        refine List.filter_eq_nil_iff.mpr ?_
        intro q hq hq1
        exact h.1 (List.mem_map.mpr ⟨q, hq, (beq_iff_eq.mp hq1).trans hid.symm⟩)
      simp [List.filter_cons, ha, ht]
    · simp only [List.filter_cons, ha, if_neg, Bool.false_eq_true, not_false_iff,
        ite_false]
      exact ih h.2

theorem fp_account_key_written_wf (k : Bool) (s : AppState) (h : TimersWf s.timers) :
    TimersWf (fp_account_key_written k s).1.timers := by
  unfold fp_account_key_written fmdn_factory_reset_schedule
  split
  · exact arm_wf _ _ _ h
  · exact h

theorem fmdn_provisioning_state_changed_wf (p k : Bool) (s : AppState)
    (h : TimersWf s.timers) :
    TimersWf (fmdn_provisioning_state_changed p k s).1.timers := by
  unfold fmdn_provisioning_state_changed fmdn_factory_reset_schedule
    fmdn_factory_reset_cancel
  dsimp only
  split_ifs
  all_goals first
    | exact arm_wf _ _ _ (cancelTimer_wf _ _ h)
    | exact arm_wf _ _ _ h
    | exact cancelTimer_wf _ _ h
    | exact h

theorem fmdn_id_mode_action_handle_wf (err : Int) (s : AppState)
    (h : TimersWf s.timers) :
    TimersWf (fmdn_id_mode_action_handle err s).1.timers := by
  unfold fmdn_id_mode_action_handle
  split_ifs <;> exact h

theorem fmdn_recovery_mode_action_handle_wf (err : Int) (s : AppState)
    (h : TimersWf s.timers) :
    TimersWf (fmdn_recovery_mode_action_handle err s).1.timers := by
  unfold fmdn_recovery_mode_action_handle
  split_ifs <;> exact h

theorem smp_cmd_recv_wf (eo so : Bool) (g i : Nat) (s : AppState)
    (h : TimersWf s.timers) :
    TimersWf (smp_cmd_recv eo so g i s).2.timers := by
  unfold smp_cmd_recv
  split_ifs
  all_goals first
    | exact arm_wf _ _ _ h
    | exact h

theorem dfu_timer_fire_wf (s : AppState) (h : TimersWf s.timers) :
    TimersWf (dfu_timer_fire s).1.timers := by
  unfold dfu_timer_fire dfu_mode_timeout_work_handle
  split_ifs
  · exact cancelTimer_wf _ _ h
  · exact h

theorem reset_timer_fire_wf (s : AppState) (h : TimersWf s.timers) :
    TimersWf (reset_timer_fire s).1.timers := by
  unfold reset_timer_fire fmdn_factory_reset_executed
  split_ifs
  · exact cancelTimer_wf _ _ h
  · exact h

theorem step_wf (s : AppState) (e : AppEvent) (h : TimersWf s.timers) :
    TimersWf (step s e).1.timers := by
  cases e with
  | accountKeyWritten k => exact fp_account_key_written_wf k s h
  | provisioningStateChanged p k => exact fmdn_provisioning_state_changed_wf p k s h
  | clockSynced => exact h
  | uiRecoveryEnter err => exact fmdn_recovery_mode_action_handle_wf err s h
  | uiIdEnter err => exact fmdn_id_mode_action_handle_wf err s h
  | uiDfuEnter => exact arm_wf _ _ _ h
  | smpCmd eo so g i => exact smp_cmd_recv_wf eo so g i s h
  | readModeExited m => cases m <;> exact h
  | dfuTimerFire => exact dfu_timer_fire_wf s h
  | resetTimerFire => exact reset_timer_fire_wf s h

theorem runEvents_wf (evs : List AppEvent) : TimersWf (runEvents evs).timers := by
  have haux : ∀ (l : List AppEvent) (s : AppState), TimersWf s.timers →
      TimersWf ((l.foldl (fun s e => (step s e).1) s)).timers := by
    intro l
    induction l with
    | nil => intro s hs; exact hs
    | cons e t ih =>
      intro s hs
      exact ih _ (step_wf s e hs)
  exact haux evs boot (by simp [TimersWf, boot])

/-- C6 (counterexample): after an account-key write at boot the
provisioning-timeout trigger is live, and a subsequent provisioning-state
callback with a key-state mismatch emits a new factory-reset schedule with no
factory-reset cancel in the same handling step, refuting the claim that a
live trigger is replaced only through an explicit cancel followed by a
schedule. -/
theorem factory_reset_schedule_without_cancel :
    (runEvents [AppEvent.accountKeyWritten true]).factory_reset_trigger
      = FactoryResetTrigger.provisioningTimeout ∧
    liveResetTimerCount (runEvents [AppEvent.accountKeyWritten true]) = 1 ∧
    Effect.factoryResetScheduleEff factoryResetDelayMs ∈
      (step (runEvents [AppEvent.accountKeyWritten true])
        (AppEvent.provisioningStateChanged false true)).2 ∧
    Effect.factoryResetCancelEff ∉
      (step (runEvents [AppEvent.accountKeyWritten true])
        (AppEvent.provisioningStateChanged false true)).2 := by
  decide

/-- C6 (amended): in every reachable state, over every event sequence, at
most one factory-reset timer is live: the factory-reset coordinator owns a
single named timer which any schedule call re-arms, so even a schedule that
is not preceded by an explicit cancel never yields two live reset timers. -/
theorem factory_reset_single_live_timer (evs : List AppEvent) :
    liveResetTimerCount (runEvents evs) ≤ 1 :=
  filter_fst_length_le _ _ (runEvents_wf evs)

/-- C2: whenever the recomputed account-key presence differs from the new
provisioned value, the handler emits exactly the provisioned UI indication,
the optional provisioning-timeout cancellation, the advertising Off command
and, last, a factory-reset schedule with the 3 second delay; it records the
KeyStateMismatch trigger and arms the reset timer, and it returns before the
factory-reset-executed check and the first-callback mode selection, leaving
the executed latch, the first-callback latch and the recovery, identification
and DFU modes unchanged. -/
theorem fmdn_prov_mismatch_path (s : AppState) (p k : Bool) (h : (k != p) = true) :
    (fmdn_provisioning_state_changed p k s).2
      = [Effect.uiIndicate UiState.provisionedUi p]
        ++ (if p && (s.factory_reset_trigger == FactoryResetTrigger.provisioningTimeout)
            then [Effect.factoryResetCancelEff, Effect.rpaRotationSuspend false]
            else [])
        ++ [Effect.advModeSet AppFpAdvMode.off,
            Effect.factoryResetScheduleEff factoryResetDelayMs] ∧
    (fmdn_provisioning_state_changed p k s).1.factory_reset_trigger
      = FactoryResetTrigger.keyStateMismatch ∧
    (TimerId.factoryReset, factoryResetDelayMs)
      ∈ (fmdn_provisioning_state_changed p k s).1.timers ∧
    (fmdn_provisioning_state_changed p k s).1.factory_reset_executed
      = s.factory_reset_executed ∧
    (fmdn_provisioning_state_changed p k s).1.is_first_state_changed_cb
      = s.is_first_state_changed_cb ∧
    (fmdn_provisioning_state_changed p k s).1.fmdn_recovery_mode
      = s.fmdn_recovery_mode ∧
    (fmdn_provisioning_state_changed p k s).1.fmdn_id_mode = s.fmdn_id_mode ∧
    (fmdn_provisioning_state_changed p k s).1.dfu_mode = s.dfu_mode := by
  unfold fmdn_provisioning_state_changed fmdn_factory_reset_schedule
    fmdn_factory_reset_cancel
  by_cases hc : (p && (s.factory_reset_trigger
      == FactoryResetTrigger.provisioningTimeout)) = true <;>
    simp [h, hc, arm_mem]

/-- Witness for the C2 theorem at a concrete input: a provisioned-state
callback at boot whose recomputed account-key presence is false records the
KeyStateMismatch trigger. -/
theorem fmdn_prov_mismatch_path_witness :
    (fmdn_provisioning_state_changed true false boot).1.factory_reset_trigger
      = FactoryResetTrigger.keyStateMismatch :=
  (fmdn_prov_mismatch_path boot true false rfl).2.1

/-- C5: when the handler reaches the advertising-mode selection step (the
recomputed account-key presence equals the new provisioned value and the
factory-reset-executed latch is clear), the selected mode is NotDiscoverable
for a provisioned first callback, Off for a provisioned later callback and
Discoverable when unprovisioned, and the first-callback latch is cleared. -/
theorem fmdn_prov_mode_selection (s : AppState) (p k : Bool) (hk : k = p)
    (hex : s.factory_reset_executed = false) :
    (fmdn_provisioning_state_changed p k s).2
      = [Effect.uiIndicate UiState.provisionedUi p]
        ++ (if p && (s.factory_reset_trigger == FactoryResetTrigger.provisioningTimeout)
            then [Effect.factoryResetCancelEff, Effect.rpaRotationSuspend false]
            else [])
        ++ [Effect.advModeSet (advModeSelect p s.is_first_state_changed_cb)] ∧
    advModeSelect p s.is_first_state_changed_cb
      = (if p then
           (if s.is_first_state_changed_cb then AppFpAdvMode.notDiscoverable
            else AppFpAdvMode.off)
         else AppFpAdvMode.discoverable) ∧
    (fmdn_provisioning_state_changed p k s).1.is_first_state_changed_cb = false := by
  subst hk
  unfold fmdn_provisioning_state_changed fmdn_factory_reset_cancel advModeSelect
  by_cases hc : (k && (s.factory_reset_trigger
      == FactoryResetTrigger.provisioningTimeout)) = true <;>
    simp [hc, hex]

/-- Witness for the C5 theorem at a concrete input: the boot scenario of the
spec, an unprovisioned first callback, selects Discoverable advertising. -/
theorem fmdn_prov_mode_selection_witness :
    (fmdn_provisioning_state_changed false false boot).2
      = [Effect.uiIndicate UiState.provisionedUi false]
        ++ (if false && (boot.factory_reset_trigger
              == FactoryResetTrigger.provisioningTimeout)
            then [Effect.factoryResetCancelEff, Effect.rpaRotationSuspend false]
            else [])
        ++ [Effect.advModeSet (advModeSelect false boot.is_first_state_changed_cb)] ∧
    advModeSelect false boot.is_first_state_changed_cb
      = (if false then
           (if boot.is_first_state_changed_cb then AppFpAdvMode.notDiscoverable
            else AppFpAdvMode.off)
         else AppFpAdvMode.discoverable) ∧
    (fmdn_provisioning_state_changed false false boot).1.is_first_state_changed_cb
      = false :=
  fmdn_prov_mode_selection boot false false rfl rfl

/-- C10: the first-callback latch is cleared only on the normal path of the
provisioning-state handler: the key-state-mismatch early return and the
factory-reset-executed early return leave the latch untouched, and a later
call that does reach the advertising-mode selection with the latch still set
selects NotDiscoverable when provisioned and only then clears the latch. -/
theorem first_cb_latch_cleared_only_on_normal_path (s : AppState) (p k : Bool) :
    ((k != p) = true →
      (fmdn_provisioning_state_changed p k s).1.is_first_state_changed_cb
        = s.is_first_state_changed_cb) ∧
    (k = p → s.factory_reset_executed = true →
      (fmdn_provisioning_state_changed p k s).1.is_first_state_changed_cb
        = s.is_first_state_changed_cb) ∧
    (k = p → s.factory_reset_executed = false → s.is_first_state_changed_cb = true →
      p = true →
      Effect.advModeSet AppFpAdvMode.notDiscoverable
        ∈ (fmdn_provisioning_state_changed p k s).2 ∧
      (fmdn_provisioning_state_changed p k s).1.is_first_state_changed_cb = false) := by
  refine ⟨?_, ?_, ?_⟩
  · intro h
    unfold fmdn_provisioning_state_changed fmdn_factory_reset_schedule
      fmdn_factory_reset_cancel
    by_cases hc : (p && (s.factory_reset_trigger
        == FactoryResetTrigger.provisioningTimeout)) = true <;>
      simp [h, hc]
  · intro hk hex
    subst hk
    unfold fmdn_provisioning_state_changed fmdn_factory_reset_cancel
    by_cases hc : (k && (s.factory_reset_trigger
        == FactoryResetTrigger.provisioningTimeout)) = true <;>
      simp [hc, hex]
  · intro hk hex hfirst hp
    subst hk hp
    unfold fmdn_provisioning_state_changed fmdn_factory_reset_cancel advModeSelect
    by_cases hc : (true && (s.factory_reset_trigger
        == FactoryResetTrigger.provisioningTimeout)) = true <;>
      simp [hc, hex, hfirst]

/-- Witness for the C10 theorem at concrete inputs: a mismatch callback at
boot leaves the latch untouched, and a consistent provisioned callback with
the latch still set selects NotDiscoverable and clears the latch. -/
theorem first_cb_latch_witness :
    (fmdn_provisioning_state_changed true false boot).1.is_first_state_changed_cb
      = boot.is_first_state_changed_cb ∧
    (Effect.advModeSet AppFpAdvMode.notDiscoverable
        ∈ (fmdn_provisioning_state_changed true true boot).2 ∧
      (fmdn_provisioning_state_changed true true boot).1.is_first_state_changed_cb
        = false) :=
  ⟨(first_cb_latch_cleared_only_on_normal_path boot true false).1 rfl,
   (first_cb_latch_cleared_only_on_normal_path boot true true).2.2 rfl rfl rfl rfl⟩

/-- C3 (counterexample): a second invocation of the DFU-mode entry routine
while dfu_mode is already true does emit the entry side effects again: the
UI indication, the firmware-update characteristic exposure command and the
advertising-mode command all appear in the second invocation's effects. -/
theorem dfu_reentry_counterexample :
    ((dfu_mode_action_handle boot).1).dfu_mode = true ∧
    Effect.uiIndicate UiState.dfuModeUi true
      ∈ (dfu_mode_action_handle (dfu_mode_action_handle boot).1).2 ∧
    Effect.smpEnable true
      ∈ (dfu_mode_action_handle (dfu_mode_action_handle boot).1).2 ∧
    Effect.advModeSet AppFpAdvMode.discoverable
      ∈ (dfu_mode_action_handle (dfu_mode_action_handle boot).1).2 := by
  decide

/-- C3 (amended): invoking the DFU-mode entry routine while dfu_mode is
already true resets the expiry timer to its full 1 minute duration and
re-emits the same entry side effects as the first entry (firmware-update
characteristic exposure, advertising-mode command, UI indication); apart from
the re-armed timer the state is unchanged. -/
theorem dfu_mode_reentry (s : AppState) (h : s.dfu_mode = true) :
    dfu_mode_action_handle s
      = ({ s with timers := arm s.timers TimerId.dfuTimeout dfuModeTimeoutMs },
         [Effect.smpEnable true,
          Effect.advModeSet (if s.fmdn_provisioned then AppFpAdvMode.notDiscoverable
                             else AppFpAdvMode.discoverable),
          Effect.uiIndicate UiState.dfuModeUi true]) ∧
    (TimerId.dfuTimeout, dfuModeTimeoutMs) ∈ (dfu_mode_action_handle s).1.timers := by
  constructor
  · unfold dfu_mode_action_handle
    cases s
    simp_all
  · exact arm_mem _ _ _

/-- Witness for the C3 amended theorem at a concrete input: re-entering DFU
mode at boot with dfu_mode already set re-arms the timer for the full
duration. -/
theorem dfu_mode_reentry_witness :
    (TimerId.dfuTimeout, dfuModeTimeoutMs)
      ∈ (dfu_mode_action_handle { boot with dfu_mode := true }).1.timers :=
  (dfu_mode_reentry { boot with dfu_mode := true } rfl).2

/-- C4 (counterexample): in the unprovisioned boot state the
identification-mode entry routine is a no-op even when the collaborator
would report success: fmdn_id_mode stays false, no collaborator call and no
UI indication is emitted. -/
theorem id_mode_unprovisioned_counterexample :
    boot.fmdn_provisioned = false ∧
    fmdn_id_mode_action_handle 0 boot = (boot, []) := by
  decide

/-- C4 (amended): identification-mode entry is a no-op in the unprovisioned
state (identifying reads are always allowed there, so the routine returns
without calling the collaborator); in the provisioned state a successful
read-mode-enter collaborator call sets fmdn_id_mode and emits a UI
indication, and a failing collaborator call leaves the state unchanged. -/
theorem fmdn_id_mode_entry (s : AppState) (err : Int) :
    (s.fmdn_provisioned = false → fmdn_id_mode_action_handle err s = (s, [])) ∧
    (s.fmdn_provisioned = true → err = 0 →
      fmdn_id_mode_action_handle err s
        = ({ s with fmdn_id_mode := true },
           [Effect.readModeEnter ReadMode.dultId,
            Effect.uiIndicate UiState.idModeUi true])) ∧
    (s.fmdn_provisioned = true → err ≠ 0 →
      fmdn_id_mode_action_handle err s
        = (s, [Effect.readModeEnter ReadMode.dultId])) := by
  refine ⟨?_, ?_, ?_⟩
  · intro hp
    unfold fmdn_id_mode_action_handle
    simp [hp]
  · intro hp herr
    subst herr
    unfold fmdn_id_mode_action_handle
    simp [hp]
  · intro hp herr
    unfold fmdn_id_mode_action_handle
    simp [hp, bne_iff_ne, herr]

/-- Witness for the C4 amended theorem at concrete inputs: the unprovisioned
no-op and the provisioned successful entry. -/
theorem fmdn_id_mode_entry_witness :
    fmdn_id_mode_action_handle 0 boot = (boot, []) ∧
    fmdn_id_mode_action_handle 0 { boot with fmdn_provisioned := true }
      = ({ { boot with fmdn_provisioned := true } with fmdn_id_mode := true },
         [Effect.readModeEnter ReadMode.dultId,
          Effect.uiIndicate UiState.idModeUi true]) :=
  ⟨(fmdn_id_mode_entry boot 0).1 rfl,
   (fmdn_id_mode_entry { boot with fmdn_provisioned := true } 0).2.1 rfl rfl⟩

theorem arm_any (ts : TimerSet) (id : TimerId) (d : Nat) :
    (arm ts id d).any (fun q => q.1 == id) = true :=
  List.any_eq_true.mpr ⟨(id, d), arm_mem ts id d, by simp⟩

/-- C8: a protected command (image-management group, or OS-group reset)
received while dfu_mode is false still arms the DFU expiry timer for the full
1 minute without setting dfu_mode, and when that timer fires the expiry
handler disables the firmware-update characteristic, forces advertising Off
and emits the DFU-mode UI indication, although DFU mode was never entered. -/
theorem smp_traffic_arms_timer_without_dfu (s : AppState) (g i : Nat)
    (hdfu : s.dfu_mode = false)
    (hg : g = MGMT_GROUP_ID_IMAGE ∨ (g = MGMT_GROUP_ID_OS ∧ i = OS_MGMT_ID_RESET)) :
    (smp_cmd_recv true true g i s).1 = MgmtCbReturn.ok ∧
    (smp_cmd_recv true true g i s).2
      = { s with timers := arm s.timers TimerId.dfuTimeout dfuModeTimeoutMs } ∧
    (smp_cmd_recv true true g i s).2.dfu_mode = false ∧
    (TimerId.dfuTimeout, dfuModeTimeoutMs) ∈ (smp_cmd_recv true true g i s).2.timers ∧
    dfu_timer_fire (smp_cmd_recv true true g i s).2
      = ({ (smp_cmd_recv true true g i s).2 with
            dfu_mode := false
            timers := cancelTimer (smp_cmd_recv true true g i s).2.timers
                        TimerId.dfuTimeout },
         [Effect.smpEnable false,
          Effect.advModeSet AppFpAdvMode.off,
          Effect.uiIndicate UiState.dfuModeUi false]) := by
  have hrecv : smp_cmd_recv true true g i s
      = (MgmtCbReturn.ok,
         { s with timers := arm s.timers TimerId.dfuTimeout dfuModeTimeoutMs }) := by
    rcases hg with hg | ⟨hg, hi⟩
    · subst hg
      unfold smp_cmd_recv
      simp [MGMT_GROUP_ID_IMAGE]
    · subst hg
      subst hi
      unfold smp_cmd_recv
      simp [MGMT_GROUP_ID_IMAGE, MGMT_GROUP_ID_OS, OS_MGMT_ID_RESET]
  rw [hrecv]
  refine ⟨rfl, rfl, hdfu, arm_mem _ _ _, ?_⟩
  unfold dfu_timer_fire dfu_mode_timeout_work_handle
  simp [arm_any]

/-- Witness for the C8 theorem at a concrete input: an image-management
command at boot arms the DFU timer while dfu_mode stays false. -/
theorem smp_traffic_arms_timer_without_dfu_witness :
    (smp_cmd_recv true true MGMT_GROUP_ID_IMAGE 0 boot).2.dfu_mode = false ∧
    (TimerId.dfuTimeout, dfuModeTimeoutMs)
      ∈ (smp_cmd_recv true true MGMT_GROUP_ID_IMAGE 0 boot).2.timers :=
  ⟨(smp_traffic_arms_timer_without_dfu boot MGMT_GROUP_ID_IMAGE 0 rfl
      (Or.inl rfl)).2.2.1,
   (smp_traffic_arms_timer_without_dfu boot MGMT_GROUP_ID_IMAGE 0 rfl
      (Or.inl rfl)).2.2.2.1⟩

/-- C9: over every call sequence on smp_adv_prov.c from its initial state,
the AD and SD flags are never simultaneously set, get_ad_data fills the SMP
UUID element and returns 0 exactly when the AD flag is set and returns
minus ENOENT otherwise, and symmetrically for get_sd_data with the SD
flag. -/
theorem smp_adv_prov_invariant (ops : List SmpAdvOp) :
    ((runSmpOps ops).ad_enabled && (runSmpOps ops).sd_enabled) = false ∧
    get_ad_data (runSmpOps ops)
      = (if (runSmpOps ops).ad_enabled then (0, some fill_data)
         else (-ENOENT, Option.none)) ∧
    get_sd_data (runSmpOps ops)
      = (if (runSmpOps ops).sd_enabled then (0, some fill_data)
         else (-ENOENT, Option.none)) := by
  have hx : ∀ (l : List SmpAdvOp) (s : SmpAdvState),
      (s.ad_enabled && s.sd_enabled) = false →
      ((l.foldl smpAdvStep s).ad_enabled && (l.foldl smpAdvStep s).sd_enabled)
        = false := by
    intro l
    induction l with
    | nil => intro s hs; exact hs
    | cons op t ih =>
      intro s hs
      refine ih _ ?_
      cases op <;>
        simp [smpAdvStep, app_smp_adv_prov_ad_enable, app_smp_adv_prov_sd_enable,
          app_smp_adv_prov_disable]
  refine ⟨hx ops smpAdvInit rfl, ?_, ?_⟩
  · by_cases h : (runSmpOps ops).ad_enabled = true <;> simp [get_ad_data, h]
  · by_cases h : (runSmpOps ops).sd_enabled = true <;> simp [get_sd_data, h]
